import Mathlib

/-!
Verification development for the joybug-tauri debugger controller
(`src-tauri/src`): a shallow embedding of the session store, the
event-driven session-state updates, the debug-event translator, the
control loop's event handler and its UI-command loop, together with
proofs of the specified properties.

External collaborators (the joybug2 RPC client, the Tauri runtime, the
wall clock) are injected as parameters: RPC results arrive as
`Except String _` values, clock readings as explicit arguments, and the
front-end emitter is modelled by returning the list of emitted events.
-/

namespace JoybugTauri

/-! ## Hex formatting and parsing helpers

Models of the Rust `format!` hex conversions used by the sources
(`{:X}`, `{:x}`, `{:02X}`, `{:#018x}`, ...) and of
`u64::from_str_radix(s.trim_start_matches("0x"), 16)`. -/

/-- Upper-case hex digit character for `d < 16` (Rust `{:X}` digits). -/
def hexDigitUpper (d : Nat) : Char :=
  if d < 10 then Char.ofNat (48 + d) else Char.ofNat (55 + d)

/-- Lower-case hex digit character for `d < 16` (Rust `{:x}` digits). -/
def hexDigitLower (d : Nat) : Char :=
  if d < 10 then Char.ofNat (48 + d) else Char.ofNat (87 + d)

/-- Exactly `w` base-16 digits of `n % 16^w`, most significant first,
rendered with the digit function `digit`. For `n < 16^w` this is the
zero-padded fixed-width output of Rust's `{:0w\x7bxX\x7d}` formats. -/
def toHexDigitsAux (digit : Nat → Char) : Nat → Nat → List Char
  | 0, _ => []
  | w + 1, n => toHexDigitsAux digit w (n / 16) ++ [digit (n % 16)]

/-- Fixed-width lower-case hex digits (Rust `{:0wx}` for values that fit). -/
def hexFixedLower (w n : Nat) : String := String.mk (toHexDigitsAux hexDigitLower w n)

/-- Fixed-width upper-case hex digits (Rust `{:0wX}` for values that fit). -/
def hexFixedUpper (w n : Nat) : String := String.mk (toHexDigitsAux hexDigitUpper w n)

/-- Unpadded hex digits of `n`, via explicit fuel (`n + 1` recursion steps
always suffice, since the digit count of `n` is at most `n + 1`). -/
def natHexAux (digit : Nat → Char) : Nat → Nat → List Char
  | 0, _ => []
  | fuel + 1, n =>
    if n < 16 then [digit n] else natHexAux digit fuel (n / 16) ++ [digit (n % 16)]

/-- Rust `format!("{:X}", n)`: unpadded upper-case hex. -/
def natHexU (n : Nat) : String := String.mk (natHexAux hexDigitUpper (n + 1) n)

/-- Rust `format!("{:x}", n)`: unpadded lower-case hex. -/
def natHexL (n : Nat) : String := String.mk (natHexAux hexDigitLower (n + 1) n)

/-- Rust `format!("{:#018x}", v)` for a `u64` value `v`: the `0x` prefix
followed by the 16 zero-padded lower-case hex digits. -/
def formatHex18 (v : Nat) : String := "0x" ++ hexFixedLower 16 v

/-- Rust `format!("{:#010x}", v)` for a `u32` value `v`. -/
def formatHex10 (v : Nat) : String := "0x" ++ hexFixedLower 8 v

/-- One hex-digit value accepted by `u64::from_str_radix(_, 16)`:
`0`-`9`, `a`-`f` and `A`-`F`. -/
def hexCharVal (c : Char) : Option Nat :=
  if 48 ≤ c.toNat ∧ c.toNat ≤ 57 then some (c.toNat - 48)
  else if 97 ≤ c.toNat ∧ c.toNat ≤ 102 then some (c.toNat - 87)
  else if 65 ≤ c.toNat ∧ c.toNat ≤ 70 then some (c.toNat - 55)
  else none

/-- Accumulating base-16 parse; `none` as soon as a non-digit appears. -/
def parseHexGo : List Char → Nat → Option Nat
  | [], acc => some acc
  | c :: cs, acc =>
    match hexCharVal c with
    | some d => parseHexGo cs (acc * 16 + d)
    | none => none

/-- Base-16 parse of a character list; the empty string is a parse error,
as in `from_str_radix`. -/
def parseHexNat (l : List Char) : Option Nat :=
  if l.isEmpty then none else parseHexGo l 0

/-- Rust `str::trim_start_matches("0x")`: repeatedly strip a leading
`0x`. -/
def trimStart0x : List Char → List Char
  | [] => []
  | [c] => [c]
  | c1 :: c2 :: rest => if c1 = '0' ∧ c2 = 'x' then trimStart0x rest else c1 :: c2 :: rest

/-- Model of `u64::from_str_radix(s.trim_start_matches("0x"), 16)`
(used by `SessionStateUI::to_debug_session` in `state.rs`): trim the
`0x` prefix, parse base 16, and fail on values outside the `u64` range. -/
def decode_hex_u64 (s : String) : Option Nat :=
  match parseHexNat (trimStart0x s.data) with
  | some v => if v < 2 ^ 64 then some v else none
  | none => none

/-! ## Data model (`state.rs`, `settings.rs`, joybug2 protocol types) -/

/-- Source: `DebugSettings` (`settings.rs`): the six stop-policy booleans. -/
structure DebugSettings where
  stop_on_thread_create : Bool
  stop_on_thread_exit : Bool
  stop_on_dll_load : Bool
  stop_on_dll_unload : Bool
  stop_on_initial_breakpoint : Bool
  stop_on_process_create : Bool
deriving DecidableEq, Repr

/-- Source: `DebugSettings::default()` (`settings.rs` lines 17-28). -/
def default_settings : DebugSettings :=
  { stop_on_thread_create := true
    stop_on_thread_exit := false
    stop_on_dll_load := true
    stop_on_dll_unload := true
    stop_on_initial_breakpoint := true
    stop_on_process_create := true }

/-- Source: `joybug2::protocol_io::DebugEvent` (external protocol enum): the
variants matched by the repository's sources. Process/thread ids and
addresses are machine integers, modelled as `Nat`. -/
inductive DebugEvent where
  | processCreated (pid tid : Nat) (image_file_name : Option String)
      (base_of_image : Nat) (size_of_image : Option Nat)
  | processExited (pid : Nat) (exit_code : Nat)
  | threadCreated (pid tid : Nat) (start_address : Nat)
  | threadExited (pid tid : Nat) (exit_code : Nat)
  | dllLoaded (pid tid : Nat) (dll_name : Option String)
      (base_of_dll : Nat) (size_of_dll : Option Nat)
  | dllUnloaded (pid tid : Nat) (base_of_dll : Nat)
  | breakpoint (pid tid : Nat) (address : Nat)
  | exception (pid tid : Nat) (code : Nat) (address : Nat) (first_chance : Bool)
  | output (pid tid : Nat) (outputText : String)
  | ripEvent (pid tid : Nat) (error : Nat) (event_type : Nat)
  | initialBreakpoint (pid tid : Nat)
  | unknown
deriving DecidableEq, Repr

/-- The external `DebugEvent::pid()` accessor (0 for `Unknown`, which
carries no ids; `events.rs` projects it to 0 as well). -/
def DebugEvent.pid : DebugEvent → Nat
  | .processCreated pid _ _ _ _ => pid
  | .processExited pid _ => pid
  | .threadCreated pid _ _ => pid
  | .threadExited pid _ _ => pid
  | .dllLoaded pid _ _ _ _ => pid
  | .dllUnloaded pid _ _ => pid
  | .breakpoint pid _ _ => pid
  | .exception pid _ _ _ _ => pid
  | .output pid _ _ => pid
  | .ripEvent pid _ _ _ => pid
  | .initialBreakpoint pid _ => pid
  | .unknown => 0

/-- The external `DebugEvent::tid()` accessor (0 for variants without a
thread id, matching the projection used in `events.rs`). -/
def DebugEvent.tid : DebugEvent → Nat
  | .processCreated _ tid _ _ _ => tid
  | .processExited _ _ => 0
  | .threadCreated _ tid _ => tid
  | .threadExited _ tid _ => tid
  | .dllLoaded _ tid _ _ _ => tid
  | .dllUnloaded _ tid _ => tid
  | .breakpoint _ tid _ => tid
  | .exception _ tid _ _ _ => tid
  | .output _ tid _ => tid
  | .ripEvent _ tid _ _ => tid
  | .initialBreakpoint _ tid => tid
  | .unknown => 0

/-- Discriminator used to transcribe `matches!(event, DebugEvent::ProcessExited { .. })`. -/
def DebugEvent.isProcessExited : DebugEvent → Bool
  | .processExited _ _ => true
  | _ => false

/-- Discriminator used to transcribe `matches!(event, DebugEvent::ThreadExited { .. })`. -/
def DebugEvent.isThreadExited : DebugEvent → Bool
  | .threadExited _ _ _ => true
  | _ => false

/-- Discriminator for the `Output | DllLoaded | DllUnloaded` toast guard in
`run_debug_session` (`session.rs` lines 867-874). -/
def DebugEvent.isOutputOrDll : DebugEvent → Bool
  | .output _ _ _ => true
  | .dllLoaded _ _ _ _ _ => true
  | .dllUnloaded _ _ _ => true
  | _ => false

/-- Source: `joybug2::protocol_io::ModuleInfo`. -/
structure ModuleInfo where
  name : String
  base : Nat
  size : Option Nat
deriving DecidableEq, Repr

/-- Source: `joybug2::protocol_io::ThreadInfo`. -/
structure ThreadInfo where
  tid : Nat
  start_address : Nat
deriving DecidableEq, Repr

/-- Session status. `state.rs` declares `SessionStatusUI` with `Created`,
`Connecting`, `Connected`, `Running`, `Paused`, `Finished`, `Error`;
`session.rs` additionally assigns `SessionStatusUI::Stopped` and
`commands.rs` matches a `SessionStatus` with the same `Created` /
`Connecting` / `Paused` / `Finished` / `Error` variants. The repository
mixes iterations of this enum; the model takes the union of the variants
the sources use. -/
inductive SessionStatus where
  | created
  | connecting
  | connected
  | running
  | paused
  | stopped
  | finished
  | error (message : String)
deriving DecidableEq, Repr

/-- Source: `Serializablex64ThreadContext` (`state.rs`): all registers as
formatted hex strings. -/
structure Serializablex64ThreadContext where
  rax : String
  rbx : String
  rcx : String
  rdx : String
  rsi : String
  rdi : String
  rbp : String
  rsp : String
  rip : String
  r8 : String
  r9 : String
  r10 : String
  r11 : String
  r12 : String
  r13 : String
  r14 : String
  r15 : String
  eflags : String
deriving DecidableEq, Repr

/-- Source: `SerializableArm64ThreadContext` (`state.rs`). -/
structure SerializableArm64ThreadContext where
  x0 : String
  x1 : String
  x2 : String
  x3 : String
  x4 : String
  x5 : String
  x6 : String
  x7 : String
  x8 : String
  x9 : String
  x10 : String
  x11 : String
  x12 : String
  x13 : String
  x14 : String
  x15 : String
  x16 : String
  x17 : String
  x18 : String
  x19 : String
  x20 : String
  x21 : String
  x22 : String
  x23 : String
  x24 : String
  x25 : String
  x26 : String
  x27 : String
  x28 : String
  x29 : String
  x30 : String
  sp : String
  pc : String
  cpsr : String
deriving DecidableEq, Repr

/-- Source: `SerializableThreadContext` (`state.rs`): tagged union over the two
architectures. -/
inductive SerializableThreadContext where
  | x64 (ctx : Serializablex64ThreadContext)
  | arm64 (ctx : SerializableArm64ThreadContext)
deriving DecidableEq, Repr

/-- Source: `DebugEventInfo` (`state.rs`): the flattened UI projection of one
debug event. -/
structure DebugEventInfo where
  event_type : String
  process_id : Nat
  thread_id : Nat
  details : String
  can_continue : Bool
  address : Option Nat
  context : Option SerializableThreadContext
deriving DecidableEq, Repr

/-- A log entry (`ui_logger.rs` / `LogEntry` in `state.rs`). The
wall-clock `timestamp` field is an injected clock artifact and is not
modelled. -/
structure LogEntry where
  level : String
  message : String
  session_id : Option String
deriving DecidableEq, Repr

deriving instance DecidableEq for Except

/-- The per-session record (`SessionStateUI` in `state.rs`; the earlier
iteration's `SessionState` used by `commands.rs` has the same data
fields). The queue endpoints (`step_sender` / `step_receiver`) and the
auxiliary RPC handle are runtime channels, modelled by the explicit
command lists and oracles threaded through the control-loop functions. -/
structure SessionState where
  id : String
  name : String
  server_url : String
  launch_command : String
  created_at : String
  status : SessionStatus
  events : List DebugEvent
  modules : List ModuleInfo
  threads : List ThreadInfo
  current_event : Option DebugEvent
  current_context : Option SerializableThreadContext
  debug_result : Option (Except String Unit)
deriving DecidableEq, Repr

/-- Source: `SessionStateUI::new` (`state.rs` lines 101-126); the `created_at`
wall-clock reading is injected as a parameter. -/
def newSessionState (id name server_url launch_command created_at : String) : SessionState :=
  { id := id
    name := name
    server_url := server_url
    launch_command := launch_command
    created_at := created_at
    status := .created
    events := []
    modules := []
    threads := []
    current_event := none
    current_context := none
    debug_result := none }

/-! ## Event-driven module/thread table updates (`session.rs` lines 103-174) -/

/-- Source: `update_session_from_event` (`session.rs`): mutates the modules and
threads tables (and, for `ProcessExited`, the status) according to the
debug event. -/
def update_session_from_event (state : SessionState) (event : DebugEvent) : SessionState :=
  match event with
  | .dllLoaded _ _ dll_name base_of_dll size_of_dll =>
    let module_name := dll_name.getD ("Unknown_0x" ++ natHexU base_of_dll)
    let module : ModuleInfo := { name := module_name, base := base_of_dll, size := size_of_dll }
    if state.modules.any (fun m => m.base == base_of_dll) then state
    else { state with modules := state.modules ++ [module] }
  | .threadCreated _ tid start_address =>
    let thread : ThreadInfo := { tid := tid, start_address := start_address }
    if state.threads.any (fun t => t.tid == thread.tid) then state
    else { state with threads := state.threads ++ [thread] }
  | .processCreated _ tid image_file_name base_of_image size_of_image =>
    let module_name := image_file_name.getD "main.exe"
    let module : ModuleInfo := { name := module_name, base := base_of_image, size := size_of_image }
    let state1 :=
      if state.modules.any (fun m => m.base == base_of_image) then state
      else { state with modules := state.modules ++ [module] }
    let thread : ThreadInfo := { tid := tid, start_address := base_of_image }
    if state1.threads.any (fun t => t.tid == thread.tid) then state1
    else { state1 with threads := state1.threads ++ [thread] }
  | .threadExited _ tid _ =>
    { state with threads := state.threads.filter (fun t => t.tid != tid) }
  | .dllUnloaded _ _ base_of_dll =>
    { state with modules := state.modules.filter (fun m => m.base != base_of_dll) }
  | .processExited _ _ =>
    { state with modules := [], threads := [], status := .stopped }
  | _ => state

/-- Fold `update_session_from_event` over a sequence of events. -/
def applyEvents (state : SessionState) (events : List DebugEvent) : SessionState :=
  events.foldl update_session_from_event state

/-! ## Event translator (`events.rs`) -/

/-- Display of an optional hex-formatted size (`size.map("0x...").unwrap_or("Unknown")`). -/
def optSizeHex (size : Option Nat) : String :=
  match size with
  | some s => "0x" ++ natHexU s
  | none => "Unknown"

/-- Source: `debug_event_to_info` (`events.rs` lines 93-269). The source `match`
has no arm for the `InitialBreakpoint` variant (that variant is only
referenced by the newer `session.rs` iteration), so the translation is
partial: `none` marks the missing arm. -/
def debug_event_to_info (event : DebugEvent) : Option DebugEventInfo :=
  match event with
  | .processCreated pid tid image_file_name base_of_image size_of_image =>
    some
      { event_type := "ProcessCreated"
        process_id := pid
        thread_id := tid
        details := "Process created: PID=" ++ toString pid ++ ", TID=" ++ toString tid ++
          ", Image=" ++ image_file_name.getD "Unknown" ++
          ", Base=0x" ++ natHexU base_of_image ++ ", Size=" ++ optSizeHex size_of_image
        can_continue := true
        address := none
        context := none }
  | .processExited pid exit_code =>
    some
      { event_type := "ProcessExited"
        process_id := pid
        thread_id := 0
        details := "Process exited: PID=" ++ toString pid ++ ", Exit Code=" ++ toString exit_code
        can_continue := false
        address := none
        context := none }
  | .threadCreated pid tid start_address =>
    some
      { event_type := "ThreadCreated"
        process_id := pid
        thread_id := tid
        details := "Thread created: PID=" ++ toString pid ++ ", TID=" ++ toString tid ++
          ", Start Address=0x" ++ natHexU start_address
        can_continue := true
        address := some start_address
        context := none }
  | .threadExited pid tid exit_code =>
    some
      { event_type := "ThreadExited"
        process_id := pid
        thread_id := tid
        details := "Thread exited: PID=" ++ toString pid ++ ", TID=" ++ toString tid ++
          ", Exit Code=" ++ toString exit_code
        can_continue := true
        address := none
        context := none }
  | .dllLoaded pid tid dll_name base_of_dll size_of_dll =>
    some
      { event_type := "DllLoaded"
        process_id := pid
        thread_id := tid
        details := "DLL loaded: PID=" ++ toString pid ++ ", TID=" ++ toString tid ++
          ", Name=" ++ dll_name.getD "Unknown" ++
          ", Base=0x" ++ natHexU base_of_dll ++ ", Size=" ++ optSizeHex size_of_dll
        can_continue := true
        address := none
        context := none }
  | .dllUnloaded pid tid base_of_dll =>
    some
      { event_type := "DllUnloaded"
        process_id := pid
        thread_id := tid
        details := "DLL unloaded: PID=" ++ toString pid ++ ", TID=" ++ toString tid ++
          ", Base=0x" ++ natHexU base_of_dll
        can_continue := true
        address := none
        context := none }
  | .breakpoint pid tid address =>
    some
      { event_type := "Breakpoint"
        process_id := pid
        thread_id := tid
        details := "Breakpoint hit: PID=" ++ toString pid ++ ", TID=" ++ toString tid ++
          ", Address=0x" ++ natHexU address
        can_continue := true
        address := some address
        context := none }
  | .exception pid tid code address first_chance =>
    some
      { event_type := "Exception"
        process_id := pid
        thread_id := tid
        details := "Exception occurred: PID=" ++ toString pid ++ ", TID=" ++ toString tid ++
          ", Code=0x" ++ natHexL code ++ ", Address=0x" ++ natHexL address ++
          ", First Chance=" ++ (if first_chance then "true" else "false")
        can_continue := true
        address := some address
        context := none }
  | .output pid tid outputText =>
    some
      { event_type := "Output"
        process_id := pid
        thread_id := tid
        details := "Debug output: PID=" ++ toString pid ++ ", TID=" ++ toString tid ++
          ", Output=" ++ outputText
        can_continue := true
        address := none
        context := none }
  | .ripEvent pid tid error event_type =>
    some
      { event_type := "RipEvent"
        process_id := pid
        thread_id := tid
        details := "RIP event: PID=" ++ toString pid ++ ", TID=" ++ toString tid ++
          ", Error=" ++ toString error ++ ", Type=" ++ toString event_type
        can_continue := true
        address := none
        context := none }
  | .unknown =>
    some
      { event_type := "Unknown"
        process_id := 0
        thread_id := 0
        details := "Unknown debug event"
        can_continue := true
        address := none
        context := none }
  | .initialBreakpoint _ _ => none

/-- The raw `Win32RawContext` register block on the x86_64 host
(external Windows `CONTEXT`; only the registers read by
`convert_raw_context_to_serializable` are modelled). Register values are
`u64` (`u32` for `EFlags`); the formatters take them mod the register
width, matching machine-integer semantics. -/
structure RawX64Context where
  rax : Nat
  rbx : Nat
  rcx : Nat
  rdx : Nat
  rsi : Nat
  rdi : Nat
  rbp : Nat
  rsp : Nat
  rip : Nat
  r8 : Nat
  r9 : Nat
  r10 : Nat
  r11 : Nat
  r12 : Nat
  r13 : Nat
  r14 : Nat
  r15 : Nat
  eflags : Nat
deriving DecidableEq, Repr

/-- Source: `joybug2::protocol::ThreadContext` (external): on the x86_64 host the
single `Win32RawContext` variant carries the x64 register block. -/
inductive ThreadContext where
  | win32RawContext (ctx : RawX64Context)
deriving DecidableEq, Repr

/-- Source: `convert_raw_context_to_serializable` (`events.rs` lines 9-91),
x86_64 host branch: every 64-bit register rendered with `{:#018x}`,
`EFlags` with `{:#010x}`. -/
def convert_raw_context_to_serializable (raw_context : ThreadContext) : SerializableThreadContext :=
  match raw_context with
  | .win32RawContext ctx =>
    .x64
      { rax := formatHex18 ctx.rax
        rbx := formatHex18 ctx.rbx
        rcx := formatHex18 ctx.rcx
        rdx := formatHex18 ctx.rdx
        rsi := formatHex18 ctx.rsi
        rdi := formatHex18 ctx.rdi
        rbp := formatHex18 ctx.rbp
        rsp := formatHex18 ctx.rsp
        rip := formatHex18 ctx.rip
        r8 := formatHex18 ctx.r8
        r9 := formatHex18 ctx.r9
        r10 := formatHex18 ctx.r10
        r11 := formatHex18 ctx.r11
        r12 := formatHex18 ctx.r12
        r13 := formatHex18 ctx.r13
        r14 := formatHex18 ctx.r14
        r15 := formatHex18 ctx.r15
        eflags := formatHex10 ctx.eflags }

/-- The UI snapshot record `DebugSessionUI` (`state.rs` lines 7-16). -/
structure DebugSessionUI where
  id : String
  name : String
  server_url : String
  launch_command : String
  status : SessionStatus
  current_event : Option DebugEventInfo
  created_at : String
deriving DecidableEq, Repr

/-- Source: `SessionStateUI::to_debug_session` (`state.rs` lines 144-176):
project the session record to its UI snapshot, attach the current
context to the event info, and default a missing `address` from the
context's RIP/PC hex string. `debug_event_to_info` is partial in the
model (see its doc comment), so the missing arm propagates to `none`. -/
def to_debug_session (st : SessionState) : DebugSessionUI :=
  { id := st.id
    name := st.name
    server_url := st.server_url
    launch_command := st.launch_command
    status := st.status
    created_at := st.created_at
    current_event :=
      st.current_event.bind fun event =>
        (debug_event_to_info event).map fun info0 =>
          let info := { info0 with context := st.current_context }
          if info.address.isSome then info
          else
            match st.current_context with
            | some (.x64 ctx) =>
              match decode_hex_u64 ctx.rip with
              | some rip => { info with address := some rip }
              | none => info
            | some (.arm64 ctx) =>
              match decode_hex_u64 ctx.pc with
              | some pc => { info with address := some pc }
              | none => info
            | none => info }

/-! ## Stop policy (`session.rs` lines 927-938) -/

/-- The pause/continue decision match of `run_debug_session`
(`session.rs` lines 930-938): the six classified variants consult their
settings toggle, every other variant pauses. -/
def should_pause (settings : DebugSettings) (event : DebugEvent) : Bool :=
  match event with
  | .processCreated _ _ _ _ _ => settings.stop_on_process_create
  | .threadCreated _ _ _ => settings.stop_on_thread_create
  | .threadExited _ _ _ => settings.stop_on_thread_exit
  | .dllLoaded _ _ _ _ _ => settings.stop_on_dll_load
  | .dllUnloaded _ _ _ => settings.stop_on_dll_unload
  | .initialBreakpoint _ _ => settings.stop_on_initial_breakpoint
  | _ => true

/-! ## Session store commands (`commands.rs`) -/

/-- The session store: id-keyed map (`SessionStatesMap`), modelled as an
association list with first-match lookup and replace-on-insert, the
observable semantics of the source's `HashMap`. -/
abbrev Store := List (String × SessionState)

/-- Source: `HashMap::get` on the store. -/
def lookupStore (store : Store) (sid : String) : Option SessionState :=
  (List.find? (fun p => p.1 == sid) store).map (fun p => p.2)

/-- Source: `HashMap::insert` on the store: replace any entry with the same id. -/
def insertStore (sid : String) (rec : SessionState) (store : Store) : Store :=
  (sid, rec) :: List.filter (fun p => p.1 != sid) store

/-- Display string of `Error::SessionAlreadyExists` (`error.rs`). -/
def errSessionAlreadyExists : String :=
  "A session with the same server and command already exists"

/-- Display string of `Error::SessionNotFound` (`error.rs`). -/
def errSessionNotFound (sid : String) : String := "Session not found: " ++ sid

/-- The status-gating message of `update_debug_session` (`commands.rs`
line 109). -/
def errInvalidEditState : String :=
  "Session can only be edited when in 'Created' or 'Finished' state."

/-- The editability test of `update_debug_session` (`commands.rs` line
108): `matches!(state.status, SessionStatus::Created | SessionStatus::Finished)`. -/
def statusEditable : SessionStatus → Bool
  | .created => true
  | .finished => true
  | _ => false

/-- Source: `create_debug_session` (`commands.rs` lines 35-81): reject a
duplicate `(server_url, launch_command)` pair against every stored
session, otherwise insert a fresh record under the clock-derived id
`session_<ts>`. The millisecond timestamp `ts` and the `created_at`
reading are injected clock inputs. Returns the new id and the store. -/
def create_debug_session (store : Store) (ts : Nat) (created_at name server_url launch_command : String) :
    Except String (String × Store) :=
  if ∃ p ∈ store, p.2.server_url = server_url ∧ p.2.launch_command = launch_command then
    .error errSessionAlreadyExists
  else
    let session_id := "session_" ++ toString ts
    .ok (session_id,
      insertStore session_id (newSessionState session_id name server_url launch_command created_at) store)

/-- Source: `update_debug_session` (`commands.rs` lines 83-135): duplicate check
excluding the target id, then lookup, then the Created/Finished status
gate, then overwrite `name` / `server_url` / `launch_command`. -/
def update_debug_session (store : Store) (session_id name server_url launch_command : String) :
    Except String Store :=
  if ∃ p ∈ store, p.1 ≠ session_id ∧ p.2.server_url = server_url ∧
      p.2.launch_command = launch_command then
    .error errSessionAlreadyExists
  else
    match lookupStore store session_id with
    | some state =>
      if statusEditable state.status then
        .ok (insertStore session_id
          { state with name := name, server_url := server_url, launch_command := launch_command }
          store)
      else .error errInvalidEditState
    | none => .error (errSessionNotFound session_id)

/-- A create or update command against the store, with clock inputs. -/
inductive StoreOp where
  | createOp (ts : Nat) (created_at name server_url launch_command : String)
  | updateOp (session_id name server_url launch_command : String)

/-- Apply one store command; on error the store is left unchanged. -/
def applyOp (store : Store) : StoreOp → Store
  | .createOp ts ca nm u l =>
    match create_debug_session store ts ca nm u l with
    | .ok r => r.2
    | .error _ => store
  | .updateOp sid nm u l =>
    match update_debug_session store sid nm u l with
    | .ok s => s
    | .error _ => store

/-- Apply a sequence of store commands to the initially empty store. -/
def applyOps (ops : List StoreOp) : Store := ops.foldl applyOp []

/-- Source: `applyOp` for a single update, used to state that a rejected update
leaves the store unchanged. -/
def applyUpdate (store : Store) (sid nm u l : String) : Store :=
  applyOp store (.updateOp sid nm u l)

/-! ## Auxiliary query payloads and the server oracle -/

/-- Source: `joybug2` disassembled instruction (external), fields as consumed by
`process_disassembly_request`. -/
structure SymbolInfo where
  module_name : String
  symbol_name : String
  offset : Nat
deriving DecidableEq, Repr

/-- External instruction record returned by `disassemble_memory`. -/
structure Instruction where
  address : Nat
  bytes : List Nat
  mnemonic : String
  op_str : String
  symbolized_op_str : Option String
  symbol_info : Option SymbolInfo
deriving DecidableEq, Repr

/-- Source: `SerializableInstruction` (`commands.rs` lines 375-382). -/
structure SerializableInstruction where
  address : String
  symbol : String
  bytes : String
  mnemonic : String
  op_str : String
deriving DecidableEq, Repr

/-- External call-stack frame returned by `get_call_stack`. -/
structure Frame where
  instruction_pointer : Nat
  stack_pointer : Nat
  frame_pointer : Nat
  symbol : Option SymbolInfo
deriving DecidableEq, Repr

/-- Source: `CallStackData` (`commands.rs` lines 625-632). -/
structure CallStackData where
  frame_number : Nat
  instruction_pointer : String
  stack_pointer : String
  frame_pointer : String
  symbol_info : Option String
deriving DecidableEq, Repr

/-- External resolved symbol returned by `find_symbols`. -/
structure ResolvedSymbol where
  name : String
  module_name : String
  rva : Nat
  va : Nat
deriving DecidableEq, Repr

/-- Source: `SymbolData` (`commands.rs` lines 634-641). -/
structure SymbolData where
  name : String
  module_name : String
  rva : Nat
  va : String
  display_name : String
deriving DecidableEq, Repr

/-- External memory-region record returned by `enumerate_memory_regions`.
The serialized projection built in `process_memory_regions_request`
formats it via `joybug2::formatting` helpers and float arithmetic
(`format_bytes`), both external; the emitted payload therefore carries
the raw regions in the model. -/
structure MemoryRegion where
  base_address : Nat
  allocation_base : Nat
  region_size : Nat
  state : Nat
  protect : Nat
  region_type : Nat
deriving DecidableEq, Repr

/-- Source: `joybug2::interfaces::Architecture` (external). -/
inductive Architecture where
  | x64
  | arm64
deriving DecidableEq, Repr

/-- Source: `joybug2::protocol_io::StepKind` (external). -/
inductive StepKind where
  | into
  | over
  | out
deriving DecidableEq, Repr

/-- Results of the blocking server calls made while servicing UI
commands: the external joybug2 client, injected as pure functions from
the call arguments to the server's reply. -/
structure AuxOracle where
  disassemble : Nat → Nat → Nat → Architecture → Except String (List Instruction)
  callStack : Nat → Nat → Except String (List Frame)
  findSymbols : String → Nat → Except String (List ResolvedSymbol)
  readMem : Nat → Nat → Nat → Except String (List Nat)
  writeMem : Nat → Nat → List Nat → Except String Unit
  memRegions : Nat → Except String (List MemoryRegion)
  stepRes : StepKind → Except String Unit

/-- Events emitted to the front-end (`app_handle.emit` targets, plus the
`show-toast` channel used by `ui_logger::toast_info`). -/
inductive FrontendEvent where
  | showToast (message : String)
  | sessionUpdated (snapshot : DebugSessionUI)
  | dllLoadedEvt (session_id : String) (pid tid : Nat) (dll_name : String)
      (base_of_dll : Nat) (size_of_dll : Option Nat)
  | dllUnloadedEvt (session_id : String) (pid tid : Nat) (base_of_dll : Nat)
      (dll_name : Option String)
  | disassemblyUpdated (session_id : String) (address : Nat)
      (instructions : List SerializableInstruction)
  | disassemblyError (session_id : String) (address : Nat) (error : String)
  | callstackUpdated (session_id : String) (frames : List CallStackData)
  | callstackError (session_id : String) (error : String)
  | symbolsUpdated (session_id : String) (pattern : String) (symbols : List SymbolData)
  | symbolsError (session_id : String) (pattern : String) (error : String)
  | memoryReadUpdated (session_id : String) (address : Nat) (requested_size : Nat)
      (data : List Nat)
  | memoryReadError (session_id : String) (address : Nat) (error : String)
  | memoryWriteResult (session_id : String) (address : Nat) (success : Bool)
      (bytes_written : Nat)
  | memoryWriteError (session_id : String) (address : Nat) (error : String)
  | memoryRegionsUpdated (session_id : String) (regions : List MemoryRegion)
  | memoryRegionsError (session_id : String) (error : String)
deriving DecidableEq, Repr

/-! ## Paused-mode query processors (`session.rs` lines 176-648)

Each processor issues one auxiliary RPC (via the oracle) and returns the
list of front-end events it emits. `hasHandle` transcribes the
`if let Some(ref handle) = app_handle_clone` guards; tracing (`debug!`,
`error!`, ...) is console logging, not part of the UI log store, and is
not modelled. -/

/-- The `SerializableInstruction` conversion (`session.rs` lines 192-216,
identical in `commands.rs` lines 455-478): `{:#X}` addresses,
`module!symbol+0x<offset>` symbols, space-joined `{:02X}` byte pairs. -/
def serializeInstruction (inst : Instruction) : SerializableInstruction :=
  { address := "0x" ++ natHexU inst.address
    symbol :=
      match inst.symbol_info with
      | some sym => sym.module_name ++ "!" ++ sym.symbol_name ++ "+0x" ++ natHexL sym.offset
      | none => "0x" ++ natHexU inst.address
    bytes := String.intercalate " " (inst.bytes.map (fun b => hexFixedUpper 2 b))
    mnemonic := inst.mnemonic
    op_str := inst.symbolized_op_str.getD inst.op_str }

/-- Source: `process_disassembly_request` (`session.rs` lines 177-274). -/
def process_disassembly_request (oracle : AuxOracle) (hasHandle : Bool) (st : SessionState)
    (event : DebugEvent) (arch : Architecture) (address : Nat) (count : Nat) :
    List FrontendEvent :=
  match oracle.disassemble event.pid address count arch with
  | .ok instructions =>
    if hasHandle then
      [.disassemblyUpdated st.id address (instructions.map serializeInstruction)]
    else []
  | .error e => if hasHandle then [.disassemblyError st.id address e] else []

/-- The `CallStackData` conversion for frame number `i`
(`session.rs` lines 291-301): `{:016x}` pointers with a literal `0x`. -/
def serializeFrame (i : Nat) (frame : Frame) : CallStackData :=
  { frame_number := i
    instruction_pointer := "0x" ++ hexFixedLower 16 frame.instruction_pointer
    stack_pointer := "0x" ++ hexFixedLower 16 frame.stack_pointer
    frame_pointer := "0x" ++ hexFixedLower 16 frame.frame_pointer
    symbol_info := frame.symbol.map fun sym =>
      sym.module_name ++ "!" ++ sym.symbol_name ++ "+0x" ++ natHexL sym.offset }

/-- Source: `process_callstack_request` (`session.rs` lines 276-355). -/
def process_callstack_request (oracle : AuxOracle) (hasHandle : Bool) (st : SessionState)
    (event : DebugEvent) : List FrontendEvent :=
  match oracle.callStack event.pid event.tid with
  | .ok frames =>
    if hasHandle then
      [.callstackUpdated st.id (frames.enum.map (fun p => serializeFrame p.1 p.2))]
    else []
  | .error e => if hasHandle then [.callstackError st.id e] else []

/-- Source: `name.find('!')` / `name[pos + 1..]`: the characters after the first
`!`, if any. -/
def afterBang : List Char → Option (List Char)
  | [] => none
  | c :: rest => if c = '!' then some rest else afterBang rest

/-- The symbol-name extraction of `process_symbol_search` (`session.rs`
lines 374-379): the substring after the first `!`, or the whole name. -/
def extractSymbolName (s : String) : String :=
  match afterBang s.data with
  | some rest => String.mk rest
  | none => s

/-- The `SymbolData` conversion (`session.rs` lines 373-388). -/
def serializeSymbol (rsym : ResolvedSymbol) : SymbolData :=
  { name := extractSymbolName rsym.name
    module_name := rsym.module_name
    rva := rsym.rva
    va := "0x" ++ natHexU rsym.va
    display_name := rsym.name }

/-- Source: `process_symbol_search` (`session.rs` lines 357-446). -/
def process_symbol_search (oracle : AuxOracle) (hasHandle : Bool) (st : SessionState)
    (pattern : String) (limit : Nat) : List FrontendEvent :=
  match oracle.findSymbols pattern limit with
  | .ok resolved_symbols =>
    if hasHandle then
      [.symbolsUpdated st.id pattern (resolved_symbols.map serializeSymbol)]
    else []
  | .error e => if hasHandle then [.symbolsError st.id pattern e] else []

/-- Source: `process_memory_read` (`session.rs` lines 449-516): an `Ok(data)`
reply — partial or complete, including zero bytes — emits
`memory-read-updated` with the requested size and the returned bytes; an
`Err` reply emits `memory-read-error`. -/
def process_memory_read (oracle : AuxOracle) (hasHandle : Bool) (st : SessionState)
    (event : DebugEvent) (address : Nat) (size : Nat) : List FrontendEvent :=
  match oracle.readMem event.pid address size with
  | .ok data =>
    if hasHandle then [.memoryReadUpdated st.id address size data] else []
  | .error e => if hasHandle then [.memoryReadError st.id address e] else []

/-- Source: `process_memory_write` (`session.rs` lines 518-576). -/
def process_memory_write (oracle : AuxOracle) (hasHandle : Bool) (st : SessionState)
    (event : DebugEvent) (address : Nat) (data : List Nat) : List FrontendEvent :=
  match oracle.writeMem event.pid address data with
  | .ok _ =>
    if hasHandle then [.memoryWriteResult st.id address true data.length] else []
  | .error e => if hasHandle then [.memoryWriteError st.id address e] else []

/-- Source: `process_memory_regions_request` (`session.rs` lines 578-648); the
payload keeps the raw regions (see `MemoryRegion`). -/
def process_memory_regions_request (oracle : AuxOracle) (hasHandle : Bool) (st : SessionState)
    (event : DebugEvent) : List FrontendEvent :=
  match oracle.memRegions event.pid with
  | .ok regions => if hasHandle then [.memoryRegionsUpdated st.id regions] else []
  | .error e => if hasHandle then [.memoryRegionsError st.id e] else []

/-! ## UI command loop (`session.rs` lines 650-817) -/

/-- Source: `UICommand` (`session.rs` lines 8-21). -/
inductive UICommand where
  | go
  | stepIn
  | stepOver
  | stepOut
  | stop
  | disassembly (arch : Architecture) (address : Nat) (count : Nat)
  | getCallStack
  | searchSymbols (pattern : String) (limit : Nat)
  | readMemory (address : Nat) (size : Nat)
  | writeMemory (address : Nat) (data : List Nat)
  | getMemoryRegions
deriving DecidableEq, Repr

/-- Observable outcome of `handle_ui_commands`: the session state when
the loop returns, the front-end events and UI-log entries produced (in
order), and the `Result<bool>` return value. -/
structure UIOutcome where
  state : SessionState
  emits : List FrontendEvent
  logs : List LogEntry
  result : Except String Bool
deriving DecidableEq, Repr

/-- Source: `handle_ui_commands` (`session.rs` lines 650-817): block on the
queue and loop. The pending commands are the list; an exhausted list is
the disconnected receiver (`recv()` error). Step commands return to the
caller; a failed step-out logs and toasts the error and keeps looping
(staying paused); query commands emit their targeted events and keep
looping; `Stop` stops the session. `Err` results carry the
`Error::DebugLoop` payload raised through the `?` operator.
The `toast_error` helper called on a step-out failure is absent from the
sources (only this caller survives); modelled from the spec: failures
are surfaced as a log entry plus a toast, i.e. one `show-toast`
emission. -/
def handle_ui_commands (oracle : AuxOracle) (hasHandle : Bool) (event : DebugEvent) :
    SessionState → List UICommand → UIOutcome
  | st, [] =>
    { state := { st with status := .error "Step receiver disconnected" }
      emits := []
      logs := []
      result := .ok false }
  | st, command :: rest =>
    match command with
    | .go =>
      if hasHandle then
        let st1 := { st with status := .running }
        { state := st1
          emits := [.sessionUpdated (to_debug_session st1)]
          logs := []
          result := .ok true }
      else { state := st, emits := [], logs := [], result := .ok true }
    | .stepIn =>
      match oracle.stepRes .into with
      | .error e =>
        { state := st, emits := [], logs := []
          result := .error ("Failed to start step-in: " ++ e) }
      | .ok _ =>
        if hasHandle then
          let st1 := { st with status := .running }
          { state := st1
            emits := [.sessionUpdated (to_debug_session st1)]
            logs := []
            result := .ok true }
        else { state := st, emits := [], logs := [], result := .ok true }
    | .stepOver =>
      match oracle.stepRes .over with
      | .error e =>
        { state := st, emits := [], logs := []
          result := .error ("Failed to start step-over: " ++ e) }
      | .ok _ =>
        if hasHandle then
          let st1 := { st with status := .running }
          { state := st1
            emits := [.sessionUpdated (to_debug_session st1)]
            logs := []
            result := .ok true }
        else { state := st, emits := [], logs := [], result := .ok true }
    | .stepOut =>
      match oracle.stepRes .out with
      | .error e =>
        let msg := "Step out failed: " ++ e
        let o := handle_ui_commands oracle hasHandle event st rest
        if hasHandle then
          { o with
              emits := .showToast msg :: o.emits
              logs := { level := "ERROR", message := msg, session_id := some st.id } :: o.logs }
        else o
      | .ok _ =>
        if hasHandle then
          let st1 := { st with status := .running }
          { state := st1
            emits := [.sessionUpdated (to_debug_session st1)]
            logs := []
            result := .ok true }
        else { state := st, emits := [], logs := [], result := .ok true }
    | .disassembly arch address count =>
      let evts := process_disassembly_request oracle hasHandle st event arch address count
      let o := handle_ui_commands oracle hasHandle event st rest
      { o with emits := evts ++ o.emits }
    | .getCallStack =>
      let evts := process_callstack_request oracle hasHandle st event
      let o := handle_ui_commands oracle hasHandle event st rest
      { o with emits := evts ++ o.emits }
    | .searchSymbols pattern limit =>
      let evts := process_symbol_search oracle hasHandle st pattern limit
      let o := handle_ui_commands oracle hasHandle event st rest
      { o with emits := evts ++ o.emits }
    | .readMemory address size =>
      let evts := process_memory_read oracle hasHandle st event address size
      let o := handle_ui_commands oracle hasHandle event st rest
      { o with emits := evts ++ o.emits }
    | .writeMemory address data =>
      let evts := process_memory_write oracle hasHandle st event address data
      let o := handle_ui_commands oracle hasHandle event st rest
      { o with emits := evts ++ o.emits }
    | .getMemoryRegions =>
      let evts := process_memory_regions_request oracle hasHandle st event
      let o := handle_ui_commands oracle hasHandle event st rest
      { o with emits := evts ++ o.emits }
    | .stop =>
      { state := { st with status := .stopped }
        emits := []
        logs := []
        result := .ok false }

/-! ## The control loop's event handler (`session.rs` lines 857-1143) -/

/-- Observable outcome of one invocation of the `on_event` closure: the
final session state, the front-end events and UI-log entries produced,
the `Ok(bool)` continuation flag, the state at the moment the loop
blocked on the UI queue (`none` when the handler returned without
waiting), and whether a `get_thread_context` RPC was issued. -/
structure HandlerOutcome where
  state : SessionState
  emits : List FrontendEvent
  logs : List LogEntry
  result : Bool
  awaiting : Option SessionState
  fetched_context : Bool
deriving Repr

/-- The targeted `dll-loaded` / `dll-unloaded` emissions with their
log/toast messages (`session.rs` lines 963-1011 and 1048-1102, identical
in both the auto-continue and the pausing paths). Returns the emitted
events and log entries; `unloaded` is the module name captured before
removal. -/
def dllTargetedEvents (sid : String) (event : DebugEvent) (unloaded : Option String) :
    List FrontendEvent × List LogEntry :=
  match event with
  | .dllUnloaded pid tid base_of_dll =>
    let message :=
      match unloaded with
      | some n => "DLL unloaded: " ++ n ++ " @ 0x" ++ natHexU base_of_dll
      | none => "DLL unloaded @ 0x" ++ natHexU base_of_dll
    ([.dllUnloadedEvt sid pid tid base_of_dll unloaded, .showToast message],
     [{ level := "INFO", message := message, session_id := some sid }])
  | .dllLoaded pid tid dll_name base_of_dll size_of_dll =>
    let nm := dll_name.getD "<unknown>"
    let message :=
      match size_of_dll with
      | some sz =>
        "DLL loaded: " ++ nm ++ " @ 0x" ++ natHexU base_of_dll ++
          " (size: 0x" ++ natHexU sz ++ ")"
      | none => "DLL loaded: " ++ nm ++ " @ 0x" ++ natHexU base_of_dll
    ([.dllLoadedEvt sid pid tid nm base_of_dll size_of_dll, .showToast message],
     [{ level := "INFO", message := message, session_id := some sid }])
  | _ => ([], [])

/-- The module name captured for `DllUnloaded` before the table update
removes it (`session.rs` lines 946-950 and 1036-1041). -/
def capturedUnloadedName (st : SessionState) (event : DebugEvent) : Option String :=
  match event with
  | .dllUnloaded _ _ base_of_dll =>
    (st.modules.find? (fun m => m.base == base_of_dll)).map (fun m => m.name)
  | _ => none

/-- The `on_event` closure of `run_debug_session` (`session.rs` lines
857-1143), one server event delivered while the session runs.
Parameters inject the external collaborators: `display` is joybug2's
`Display` impl for `DebugEvent` (used in the debug log and generic
toast), `fetch` is the `get_thread_context` reply, `oracle` the
auxiliary client, and `cmds` the commands pending on the UI queue.
The closure unwraps the app handle (line 861), so the emitter is always
present.

Control flow: log the event; toast it unless it is Output/Dll traffic;
the Output special case logs and toasts with the `OutputDebugString: `
prefix, records the event and emits a snapshot — and then falls through;
`ProcessExited` finalizes; a `ThreadExited` with `stop_on_thread_exit`
unset auto-continues; otherwise the stop-policy match decides: either
record-and-continue (status kept `Running`, DLL targeted events), or
fetch the thread context, mark the session `Paused`, emit, and block on
the UI queue. -/
def on_event (settings : DebugSettings) (display : DebugEvent → String)
    (oracle : AuxOracle) (fetch : Except String ThreadContext)
    (cmds : List UICommand) (st : SessionState) (event : DebugEvent) : HandlerOutcome :=
  let sid := st.id
  let logs0 : List LogEntry :=
    [{ level := "DEBUG", message := "Received debug event: " ++ display event,
       session_id := some sid }]
  let emits0 : List FrontendEvent :=
    if event.isOutputOrDll then [] else [.showToast (display event)]
  let outputStep : SessionState × List LogEntry × List FrontendEvent :=
    match event with
    | .output _ _ outputText =>
      let msg := "OutputDebugString: " ++ outputText
      let st1 : SessionState := { st with events := st.events ++ [event] }
      (st1,
       [{ level := "INFO", message := msg, session_id := some sid }],
       [.showToast msg, .sessionUpdated (to_debug_session st1)])
    | _ => (st, [], [])
  let st1 := outputStep.1
  let logs1 := logs0 ++ outputStep.2.1
  let emits1 := emits0 ++ outputStep.2.2
  if event.isProcessExited then
    let st2 := update_session_from_event
      { st1 with current_event := some event, events := st1.events ++ [event] } event
    { state := st2
      emits := emits1 ++ [.sessionUpdated (to_debug_session st2)]
      logs := logs1
      result := true
      awaiting := none
      fetched_context := false }
  else if event.isThreadExited && !settings.stop_on_thread_exit then
    let st2 := update_session_from_event
      { st1 with current_event := some event, events := st1.events ++ [event] } event
    { state := st2
      emits := emits1 ++ [.sessionUpdated (to_debug_session st2)]
      logs := logs1
      result := true
      awaiting := none
      fetched_context := false }
  else if !(should_pause settings event) then
    let unloaded := capturedUnloadedName st1 event
    let st2a := update_session_from_event
      { st1 with current_event := some event, events := st1.events ++ [event] } event
    let st2 := { st2a with status := .running }
    let dll := dllTargetedEvents sid event unloaded
    { state := st2
      emits := emits1 ++ dll.1 ++ [.sessionUpdated (to_debug_session st2)]
      logs := logs1 ++ dll.2
      result := true
      awaiting := none
      fetched_context := false }
  else
    match fetch with
    | .error e =>
      let st2 := { st1 with status := .error ("GetThreadContext failed: " ++ e) }
      { state := st2
        emits := emits1 ++ [.sessionUpdated (to_debug_session st2)]
        logs := logs1
        result := false
        awaiting := none
        fetched_context := true }
    | .ok context =>
      let stP0 : SessionState :=
        { st1 with
            current_event := some event
            events := st1.events ++ [event]
            status := .paused
            current_context := some (convert_raw_context_to_serializable context) }
      let unloaded := capturedUnloadedName stP0 event
      let stP := update_session_from_event stP0 event
      let dll := dllTargetedEvents sid event unloaded
      let o := handle_ui_commands oracle true event stP cmds
      let finalState :=
        match o.result with
        | .ok _ => o.state
        | .error e => { o.state with status := .error ("Debug loop failed: " ++ e) }
      let res := match o.result with | .ok b => b | .error _ => false
      { state := finalState
        emits := emits1 ++ dll.1 ++ [.sessionUpdated (to_debug_session stP)] ++ o.emits
        logs := logs1 ++ dll.2 ++ o.logs
        result := res
        awaiting := some stP
        fetched_context := true }

/-! ## Helper lemmas: hex round trip -/

theorem toHexDigitsAux_length (digit : Nat → Char) (w : Nat) :
    ∀ n, (toHexDigitsAux digit w n).length = w := by
  induction w with
  | zero => intro n; rfl
  | succ w ih => intro n; simp [toHexDigitsAux, ih]

theorem mem_toHexDigitsAux_lower (w : Nat) :
    ∀ (n : Nat) (c : Char), c ∈ toHexDigitsAux hexDigitLower w n →
      ∃ d, d < 16 ∧ c = hexDigitLower d := by
  induction w with
  | zero => intro n c hc; simp [toHexDigitsAux] at hc
  | succ w ih =>
    intro n c hc
    simp only [toHexDigitsAux, List.mem_append, List.mem_singleton] at hc
    rcases hc with hc | hc
    · exact ih _ _ hc
    · exact ⟨n % 16, Nat.mod_lt _ (by norm_num), hc⟩

theorem hexDigitLower_ne_x (d : Nat) (hd : d < 16) : hexDigitLower d ≠ 'x' := by
  interval_cases d <;> decide

theorem hexCharVal_hexDigitLower (d : Nat) (hd : d < 16) :
    hexCharVal (hexDigitLower d) = some d := by
  interval_cases d <;> decide

theorem parseHexGo_append (l1 l2 : List Char) :
    ∀ acc, parseHexGo (l1 ++ l2) acc =
      match parseHexGo l1 acc with
      | some acc2 => parseHexGo l2 acc2
      | none => none := by
  induction l1 with
  | nil => intro acc; rfl
  | cons c cs ih =>
    intro acc
    simp only [List.cons_append, parseHexGo]
    cases h : hexCharVal c with
    | some d => simp [ih]
    | none => rfl

theorem parseHexGo_toHexDigitsAux (w : Nat) :
    ∀ (n acc : Nat), n < 16 ^ w →
      parseHexGo (toHexDigitsAux hexDigitLower w n) acc = some (acc * 16 ^ w + n) := by
  induction w with
  | zero =>
    intro n acc hn
    have hn0 : n = 0 := by omega
    subst hn0
    simp [toHexDigitsAux, parseHexGo]
  | succ w ih =>
    intro n acc hn
    have hdiv : n / 16 < 16 ^ w := by
      rw [Nat.div_lt_iff_lt_mul (by norm_num : 0 < 16)]
      calc n < 16 ^ (w + 1) := hn
        _ = 16 ^ w * 16 := pow_succ 16 w
    rw [toHexDigitsAux, parseHexGo_append, ih (n / 16) acc hdiv]
    simp only [parseHexGo, hexCharVal_hexDigitLower (n % 16) (Nat.mod_lt _ (by norm_num))]
    have key : n / 16 * 16 + n % 16 = n := by omega
    congr 1
    calc (acc * 16 ^ w + n / 16) * 16 + n % 16
        = acc * (16 ^ w * 16) + (n / 16 * 16 + n % 16) := by ring
      _ = acc * (16 ^ w * 16) + n := by rw [key]
      _ = acc * 16 ^ (w + 1) + n := by rw [pow_succ]

theorem trimStart0x_cons0x (l : List Char) : trimStart0x ('0' :: 'x' :: l) = trimStart0x l := by
  simp [trimStart0x]

theorem trimStart0x_of_digits (l : List Char)
    (h : ∀ c ∈ l, ∃ d, d < 16 ∧ c = hexDigitLower d) : trimStart0x l = l := by
  match l with
  | [] => rfl
  | [c] => rfl
  | c1 :: c2 :: rest =>
    obtain ⟨d, hd, hcd⟩ := h c2 (by simp)
    have hx : ¬(c1 = '0' ∧ c2 = 'x') := by
      rintro ⟨-, h2⟩
      exact hexDigitLower_ne_x d hd (hcd ▸ h2)
    simp only [trimStart0x]
    rw [if_neg hx]

theorem decode_formatHex18 (a : Nat) (ha : a < 2 ^ 64) :
    decode_hex_u64 (formatHex18 a) = some a := by
  have h16 : a < 16 ^ 16 := by
    have : (16 : Nat) ^ 16 = 2 ^ 64 := by norm_num
    omega
  have hdata : (formatHex18 a).data = '0' :: 'x' :: toHexDigitsAux hexDigitLower 16 a := by
    simp [formatHex18, hexFixedLower, String.data_append]
  have htrim : trimStart0x ((formatHex18 a).data) = toHexDigitsAux hexDigitLower 16 a := by
    rw [hdata, trimStart0x_cons0x]
    exact trimStart0x_of_digits _ (fun c hc => mem_toHexDigitsAux_lower 16 a c hc)
  have hne : (toHexDigitsAux hexDigitLower 16 a).isEmpty = false := by
    have := toHexDigitsAux_length hexDigitLower 16 a
    cases hl : toHexDigitsAux hexDigitLower 16 a with
    | nil => rw [hl] at this; simp at this
    | cons c cs => rfl
  rw [decode_hex_u64, htrim, parseHexNat, hne]
  simp only [Bool.false_eq_true, if_false]
  rw [parseHexGo_toHexDigitsAux 16 a 0 h16]
  have ha2 : a < 18446744073709551616 := by
    have h := ha
    norm_num at h
    exact h
  simp [ha2]

/-! ## Helper lemmas: module/thread tables -/

/-- Invariant: module base addresses are pairwise distinct. -/
def ModulesNodup (st : SessionState) : Prop :=
  (st.modules.map (fun m => m.base)).Nodup

theorem countP_base_eq_zero {l : List ModuleInfo} {b : Nat}
    (h : ∀ m ∈ l, m.base ≠ b) : l.countP (fun m => m.base == b) = 0 := by
  rw [List.countP_eq_zero]
  intro m hm
  simp [h m hm]

theorem countP_base_le_one {l : List ModuleInfo} {b : Nat}
    (h : (l.map (fun m => m.base)).Nodup) : l.countP (fun m => m.base == b) ≤ 1 := by
  induction l with
  | nil => simp
  | cons m t ih =>
    simp only [List.map_cons, List.nodup_cons] at h
    by_cases hb : m.base = b
    · rw [List.countP_cons]
      have ht : t.countP (fun m => m.base == b) = 0 := by
        apply countP_base_eq_zero
        intro x hx hxb
        exact h.1 (by rw [← hb] at hxb; exact hxb ▸ List.mem_map_of_mem _ hx)
      simp [ht, hb]
    · rw [List.countP_cons]
      have := ih h.2
      simp [hb]
      omega

theorem any_base_false_forall {l : List ModuleInfo} {b : Nat}
    (h : l.any (fun m => m.base == b) = false) : ∀ m ∈ l, m.base ≠ b := by
  intro m hm hb
  have h2 := (List.any_eq_false.mp h) m hm
  rw [hb] at h2
  simp at h2

theorem any_base_true_exists {l : List ModuleInfo} {b : Nat}
    (h : l.any (fun m => m.base == b) = true) : ∃ m ∈ l, m.base = b := by
  rw [List.any_eq_true] at h
  obtain ⟨m, hm, hb⟩ := h
  exact ⟨m, hm, by simpa using hb⟩

theorem modulesNodup_update (st : SessionState) (e : DebugEvent) (h : ModulesNodup st) :
    ModulesNodup (update_session_from_event st e) := by
  cases e with
  | dllLoaded pid tid dname b sz =>
    by_cases hb : st.modules.any (fun m => m.base == b) = true
    · simpa [update_session_from_event, hb] using h
    · have hb2 := any_base_false_forall (Bool.eq_false_iff.mpr hb)
      simp only [update_session_from_event, Bool.eq_false_iff.mpr hb, if_false,
        Bool.false_eq_true]
      unfold ModulesNodup at h ⊢
      simp only [List.map_append, List.map_cons, List.map_nil]
      rw [List.nodup_append]
      refine ⟨h, List.nodup_singleton _, ?_⟩
      intro x hx hx2
      simp only [List.mem_map] at hx
      obtain ⟨m, hm, hmx⟩ := hx
      simp only [List.mem_singleton] at hx2
      exact hb2 m hm (by rw [hmx, hx2])
  | processCreated pid tid img b sz =>
    by_cases hb : st.modules.any (fun m => m.base == b) = true
    · by_cases ht : st.threads.any (fun t => t.tid == tid) = true
      · simpa [update_session_from_event, hb, ht] using h
      · simpa [update_session_from_event, hb, ht, ModulesNodup] using h
    · have hb2 := any_base_false_forall (Bool.eq_false_iff.mpr hb)
      have hmods : ModulesNodup
          { st with modules := st.modules ++ [{ name := img.getD "main.exe", base := b, size := sz }] } := by
        unfold ModulesNodup at h ⊢
        simp only [List.map_append, List.map_cons, List.map_nil]
        rw [List.nodup_append]
        refine ⟨h, List.nodup_singleton _, ?_⟩
        intro x hx hx2
        simp only [List.mem_map] at hx
        obtain ⟨m, hm, hmx⟩ := hx
        simp only [List.mem_singleton] at hx2
        exact hb2 m hm (by rw [hmx, hx2])
      by_cases ht : ({ st with modules := st.modules ++
          [{ name := img.getD "main.exe", base := b, size := sz }] } : SessionState).threads.any
            (fun t => t.tid == tid) = true
      · simpa [update_session_from_event, Bool.eq_false_iff.mpr hb, ht] using hmods
      · simp only [update_session_from_event, Bool.eq_false_iff.mpr hb, if_false,
          Bool.false_eq_true] at ht ⊢
        simpa [Bool.eq_false_iff.mpr ht, ModulesNodup] using hmods
  | dllUnloaded pid tid b =>
    unfold ModulesNodup at h ⊢
    simp only [update_session_from_event]
    exact List.Nodup.sublist (List.Sublist.map _ (List.filter_sublist _)) h
  | threadExited pid tid ec =>
    simpa [update_session_from_event, ModulesNodup] using h
  | threadCreated pid tid sa =>
    by_cases ht : st.threads.any (fun t => t.tid == tid) = true
    · simpa [update_session_from_event, ht] using h
    · simpa [update_session_from_event, ht, ModulesNodup] using h
  | processExited pid ec => simp [update_session_from_event, ModulesNodup]
  | breakpoint pid tid a => simpa [update_session_from_event] using h
  | exception pid tid c a fc => simpa [update_session_from_event] using h
  | output pid tid o => simpa [update_session_from_event] using h
  | ripEvent pid tid er et => simpa [update_session_from_event] using h
  | initialBreakpoint pid tid => simpa [update_session_from_event] using h
  | unknown => simpa [update_session_from_event] using h

theorem modulesNodup_applyEvents (es : List DebugEvent) :
    ∀ (st : SessionState), ModulesNodup st → ModulesNodup (applyEvents st es) := by
  induction es with
  | nil => intro st h; exact h
  | cons e t ih =>
    intro st h
    exact ih _ (modulesNodup_update st e h)

theorem modulesNodup_new (id nm su lc ca : String) :
    ModulesNodup (newSessionState id nm su lc ca) := by
  simp [ModulesNodup, newSessionState]

/-! ## Concrete fixtures for evaluated statements -/

/-- An auxiliary oracle whose every call fails; concrete statements
override the fields they exercise. -/
def trivialOracle : AuxOracle :=
  { disassemble := fun _ _ _ _ => .error "unavailable"
    callStack := fun _ _ => .error "unavailable"
    findSymbols := fun _ _ => .error "unavailable"
    readMem := fun _ _ _ => .error "unavailable"
    writeMem := fun _ _ _ => .error "unavailable"
    memRegions := fun _ => .error "unavailable"
    stepRes := fun _ => .error "unavailable" }

/-- An all-zero raw x64 register block. -/
def zeroRawContext : RawX64Context :=
  { rax := 0, rbx := 0, rcx := 0, rdx := 0, rsi := 0, rdi := 0, rbp := 0, rsp := 0
    rip := 0, r8 := 0, r9 := 0, r10 := 0, r11 := 0, r12 := 0, r13 := 0, r14 := 0
    r15 := 0, eflags := 0 }

/-! ## Claims -/

/-- C2: the pause/continue decision is a pure function of
(event variant, settings): `should_pause` — the stop-policy match of
`run_debug_session` — maps `ProcessCreated` to `stop_on_process_create`,
`ThreadCreated` to `stop_on_thread_create`, `ThreadExited` to
`stop_on_thread_exit`, `DllLoaded` to `stop_on_dll_load`, `DllUnloaded`
to `stop_on_dll_unload` and `InitialBreakpoint` to
`stop_on_initial_breakpoint`, for every settings value; and the default
settings set all six booleans true except `stop_on_thread_exit`. -/
theorem c2_stop_policy_pure_function :
    (∀ (settings : DebugSettings) (pid tid : Nat) (img dname : Option String)
        (base sa ec : Nat) (sz : Option Nat),
      should_pause settings (.processCreated pid tid img base sz)
          = settings.stop_on_process_create
        ∧ should_pause settings (.threadCreated pid tid sa)
          = settings.stop_on_thread_create
        ∧ should_pause settings (.threadExited pid tid ec)
          = settings.stop_on_thread_exit
        ∧ should_pause settings (.dllLoaded pid tid dname base sz)
          = settings.stop_on_dll_load
        ∧ should_pause settings (.dllUnloaded pid tid base)
          = settings.stop_on_dll_unload
        ∧ should_pause settings (.initialBreakpoint pid tid)
          = settings.stop_on_initial_breakpoint)
    ∧ default_settings.stop_on_process_create = true
    ∧ default_settings.stop_on_thread_create = true
    ∧ default_settings.stop_on_thread_exit = false
    ∧ default_settings.stop_on_dll_load = true
    ∧ default_settings.stop_on_dll_unload = true
    ∧ default_settings.stop_on_initial_breakpoint = true :=
  ⟨fun _ _ _ _ _ _ _ _ _ => ⟨rfl, rfl, rfl, rfl, rfl, rfl⟩,
   rfl, rfl, rfl, rfl, rfl, rfl⟩

/-- C8: wherever the event translator is defined (it has an arm for every
variant except `InitialBreakpoint`), the produced event info has
`can_continue = false` exactly for the `ProcessExited` variant. -/
theorem c8_can_continue_iff_process_exited (e : DebugEvent) (info : DebugEventInfo)
    (h : debug_event_to_info e = some info) :
    info.can_continue = false ↔ e.isProcessExited = true := by
  cases e <;> simp_all [debug_event_to_info, DebugEvent.isProcessExited] <;>
    simp [← h]

/-- C8 witness: evaluated at the `ProcessExited` variant. -/
theorem c8_can_continue_iff_process_exited_witness :
    debug_event_to_info (.processExited 7 0)
      = some { event_type := "ProcessExited", process_id := 7, thread_id := 0,
               details := "Process exited: PID=7, Exit Code=0", can_continue := false,
               address := none, context := none }
    ∧ (({ event_type := "ProcessExited", process_id := 7, thread_id := 0,
          details := "Process exited: PID=7, Exit Code=0", can_continue := false,
          address := none, context := none } : DebugEventInfo).can_continue = false
        ↔ (DebugEvent.processExited 7 0).isProcessExited = true) :=
  ⟨by decide, c8_can_continue_iff_process_exited (.processExited 7 0) _ (by decide)⟩

/-- C7 (as amended): while paused, a memory read of `size` bytes whose
server call returns `Ok(data)` — for any returned length, zero included —
emits exactly one `memory-read-updated` event carrying
`requested_size = size` and the returned bytes; `memory-read-error` is
emitted exactly when the server call fails. -/
theorem c7_memory_read_emissions (oracle : AuxOracle) (st : SessionState)
    (event : DebugEvent) (address size : Nat) :
    (∀ data, oracle.readMem event.pid address size = .ok data →
      process_memory_read oracle true st event address size
        = [.memoryReadUpdated st.id address size data])
    ∧ (∀ e, oracle.readMem event.pid address size = .error e →
      process_memory_read oracle true st event address size
        = [.memoryReadError st.id address e]) := by
  constructor <;> intro x h <;> simp [process_memory_read, h]

/-- C7 witness: a partial read of 2 of 4 requested bytes. -/
theorem c7_memory_read_emissions_witness :
    ({ trivialOracle with readMem := fun _ _ _ => .ok [144, 194] } : AuxOracle).readMem
        1 4096 4 = .ok [144, 194]
    ∧ process_memory_read { trivialOracle with readMem := fun _ _ _ => .ok [144, 194] } true
        (newSessionState "s" "n" "u" "l" "t") (.breakpoint 1 2 4096) 4096 4
      = [.memoryReadUpdated "s" 4096 4 [144, 194]] :=
  ⟨rfl, (c7_memory_read_emissions _ _ _ _ _).1 [144, 194] rfl⟩

/-- C7 counterexample: the claim's K = 0 clause fails on the code. A
4-byte read answered by `Ok` with 0 bytes emits `memory-read-updated`
(with empty data), not `memory-read-error`: `process_memory_read` does
not special-case an empty `Ok` reply (`session.rs` lines 460-492). -/
theorem c7_zero_byte_read_counterexample :
    process_memory_read { trivialOracle with readMem := fun _ _ _ => .ok [] } true
      (newSessionState "s" "n" "u" "l" "t") (.breakpoint 1 2 4096) 4096 4
      = [.memoryReadUpdated "s" 4096 4 []] := rfl

/-- C6: while the session is paused, a step-out whose server call fails
is surfaced as one ERROR log entry and one toast, the loop continues
blocking on the UI queue with the session state unchanged (hence still
`Paused`), and a subsequent step-in is processed normally (status becomes
`Running`, snapshot emitted, `Ok(true)` returned). -/
theorem c6_stepout_failure_stays_paused (oracle : AuxOracle) (event : DebugEvent)
    (st : SessionState) (em : String)
    (hs : st.status = .paused)
    (hout : oracle.stepRes .out = .error em)
    (hin : oracle.stepRes .into = .ok ()) :
    st.status = .paused
    ∧ (∀ cmds, handle_ui_commands oracle true event st (.stepOut :: cmds)
        = let o := handle_ui_commands oracle true event st cmds
          { o with
              emits := .showToast ("Step out failed: " ++ em) :: o.emits
              logs := { level := "ERROR", message := "Step out failed: " ++ em,
                        session_id := some st.id } :: o.logs })
    ∧ handle_ui_commands oracle true event st [.stepOut, .stepIn]
        = { state := { st with status := .running }
            emits := [.showToast ("Step out failed: " ++ em),
                      .sessionUpdated (to_debug_session { st with status := .running })]
            logs := [{ level := "ERROR", message := "Step out failed: " ++ em,
                       session_id := some st.id }]
            result := .ok true } := by
  refine ⟨hs, fun cmds => ?_, ?_⟩
  · simp [handle_ui_commands, hout]
  · simp [handle_ui_commands, hout, hin]

/-- The oracle of the C6 witness: step-out fails, other steps succeed. -/
def c6Oracle : AuxOracle :=
  { trivialOracle with
      stepRes := fun k => match k with | .out => .error "no return" | _ => .ok () }

/-- The paused session of the C6 witness. -/
def c6State : SessionState :=
  { newSessionState "s" "n" "u" "l" "t" with status := .paused }

/-- C6 witness: the failing-step-out-then-step-in scenario evaluated on a
concrete paused session. -/
theorem c6_stepout_failure_stays_paused_witness :
    c6State.status = .paused
    ∧ c6Oracle.stepRes .out = .error "no return"
    ∧ c6Oracle.stepRes .into = .ok ()
    ∧ handle_ui_commands c6Oracle true (.breakpoint 1 2 3) c6State [.stepOut, .stepIn]
        = { state := { c6State with status := .running }
            emits := [.showToast "Step out failed: no return",
                      .sessionUpdated (to_debug_session { c6State with status := .running })]
            logs := [{ level := "ERROR", message := "Step out failed: no return",
                       session_id := some "s" }]
            result := .ok true } :=
  ⟨rfl, rfl, rfl,
   (c6_stepout_failure_stays_paused c6Oracle (.breakpoint 1 2 3) c6State "no return"
      rfl rfl rfl).2.2⟩

/-- C10: every `Output` event handled by the event handler (with the
thread-context fetch succeeding) is appended to the events log twice:
once in the Output special-case branch and once more in the pausing
branch the handler falls through to. At the point where the loop blocks
on the UI queue, the log has grown by exactly two copies of the event. -/
theorem c10_output_event_recorded_twice (settings : DebugSettings)
    (display : DebugEvent → String) (oracle : AuxOracle) (ctx : ThreadContext)
    (cmds : List UICommand) (st : SessionState) (pid tid : Nat) (out : String) :
    (on_event settings display oracle (.ok ctx) cmds st (.output pid tid out)).awaiting.map
        (fun s => s.events)
      = some (st.events ++ [.output pid tid out, .output pid tid out]) := by
  simp [on_event, should_pause, DebugEvent.isProcessExited, DebugEvent.isThreadExited,
    DebugEvent.isOutputOrDll, capturedUnloadedName, update_session_from_event]

/-- The running session of the C1 evaluation. -/
def c1State : SessionState :=
  { newSessionState "s" "n" "u" "l" "t" with status := .running }

/-- C1: refuted on the code (code bug). The Output special case of the
`on_event` closure (`session.rs` lines 876-893) logs and toasts the
output with the `OutputDebugString: ` prefix and records the event — but
it does not return, and the stop-policy match treats `Output` by its
wildcard arm (`_ => true`), so the handler falls through into the
pausing branch: it fetches the thread context and sets the status to
`Paused`, contradicting both the claim and the code's own comments
("do not pause", "no context fetch / pause"). Evaluated here on a
concrete `Output` event under default settings with a successful context
fetch: the prefix log and toast do happen, yet a context fetch is
performed and the session is `Paused` when the loop blocks on the UI
queue. -/
theorem c1_output_event_pauses :
    ({ level := "INFO", message := "OutputDebugString: hi", session_id := some "s" } ∈
        (on_event default_settings (fun _ => "Output") trivialOracle
          (.ok (.win32RawContext zeroRawContext)) [] c1State (.output 1000 2000 "hi")).logs)
    ∧ (FrontendEvent.showToast "OutputDebugString: hi" ∈
        (on_event default_settings (fun _ => "Output") trivialOracle
          (.ok (.win32RawContext zeroRawContext)) [] c1State (.output 1000 2000 "hi")).emits)
    ∧ (on_event default_settings (fun _ => "Output") trivialOracle
          (.ok (.win32RawContext zeroRawContext)) [] c1State
          (.output 1000 2000 "hi")).fetched_context = true
    ∧ (on_event default_settings (fun _ => "Output") trivialOracle
          (.ok (.win32RawContext zeroRawContext)) [] c1State
          (.output 1000 2000 "hi")).awaiting.map (fun s => s.status)
        = some SessionStatus.paused := by decide

/-- C3: module/thread consistency of the event-driven table updates.
For every session state reachable from a fresh session by applying any
event sequence: applying `DllLoaded` with base `B` leaves exactly one
module entry with base `B`, and when the event carries no name and no
entry with base `B` existed, that entry's name is the synthesized
`Unknown_0x<base>` (upper-case hex). Applying `DllUnloaded` with base
`B` (to any state) leaves no entry with base `B`; applying
`ThreadExited` leaves no thread with that tid; applying `ProcessExited`
clears both tables. -/
theorem c3_module_thread_consistency (id nm su lc ca : String) (es : List DebugEvent)
    (pid tid : Nat) (dname : Option String) (B : Nat) (sz : Option Nat) :
    ((update_session_from_event (applyEvents (newSessionState id nm su lc ca) es)
          (.dllLoaded pid tid dname B sz)).modules.countP (fun m => m.base == B) = 1
      ∧ (dname = none →
          (applyEvents (newSessionState id nm su lc ca) es).modules.any
              (fun m => m.base == B) = false →
          (update_session_from_event (applyEvents (newSessionState id nm su lc ca) es)
              (.dllLoaded pid tid dname B sz)).modules.filter (fun m => m.base == B)
            = [{ name := "Unknown_0x" ++ natHexU B, base := B, size := sz }]))
    ∧ (∀ (stX : SessionState) (pid2 tid2 : Nat),
        (update_session_from_event stX (.dllUnloaded pid2 tid2 B)).modules.countP
          (fun m => m.base == B) = 0)
    ∧ (∀ (stX : SessionState) (pid3 tid3 ec3 : Nat),
        (update_session_from_event stX (.threadExited pid3 tid3 ec3)).threads.countP
          (fun t => t.tid == tid3) = 0)
    ∧ (∀ (stX : SessionState) (pid4 ec4 : Nat),
        (update_session_from_event stX (.processExited pid4 ec4)).modules = []
          ∧ (update_session_from_event stX (.processExited pid4 ec4)).threads = []) := by
  have hnodup : ModulesNodup (applyEvents (newSessionState id nm su lc ca) es) :=
    modulesNodup_applyEvents es _ (modulesNodup_new id nm su lc ca)
  refine ⟨⟨?_, ?_⟩, ?_, ?_, ?_⟩
  · set st := applyEvents (newSessionState id nm su lc ca) es with hst
    by_cases hb : st.modules.any (fun m => m.base == B) = true
    · obtain ⟨m, hm, hmb⟩ := any_base_true_exists hb
      have hle := countP_base_le_one (l := st.modules) (b := B) hnodup
      have hge : 1 ≤ st.modules.countP (fun m => m.base == B) := by
        rw [Nat.succ_le, List.countP_pos_iff]
        exact ⟨m, hm, by simp [hmb]⟩
      simp only [update_session_from_event, hb, if_true]
      omega
    · have hforall := any_base_false_forall (Bool.eq_false_iff.mpr hb)
      simp only [update_session_from_event, Bool.eq_false_iff.mpr hb, if_false,
        Bool.false_eq_true, List.countP_append]
      rw [countP_base_eq_zero hforall]
      simp
  · intro hdn hany
    set st := applyEvents (newSessionState id nm su lc ca) es with hst
    have hforall := any_base_false_forall hany
    simp only [update_session_from_event, hany, if_false, Bool.false_eq_true,
      List.filter_append]
    have hfil : st.modules.filter (fun m => m.base == B) = [] := by
      rw [List.filter_eq_nil_iff]
      intro m hm
      simp [hforall m hm]
    rw [hfil, hdn]
    simp
  · intro stX pid2 tid2
    simp only [update_session_from_event]
    rw [List.countP_eq_zero]
    intro m hm
    have := List.of_mem_filter hm
    simp only [bne_iff_ne, ne_eq] at this
    simp [this]
  · intro stX pid3 tid3 ec3
    simp only [update_session_from_event]
    rw [List.countP_eq_zero]
    intro t ht
    have := List.of_mem_filter ht
    simp only [bne_iff_ne, ne_eq] at this
    simp [this]
  · intro stX pid4 ec4
    exact ⟨rfl, rfl⟩

/-- C3 witness: a fresh session, a nameless `DllLoaded` at base `0x1000`
(no prior entry with that base), evaluated: the single base-`0x1000`
entry carries the synthesized name `Unknown_0x1000`. -/
theorem c3_module_thread_consistency_witness :
    ((applyEvents (newSessionState "s" "n" "u" "l" "t") []).modules.any
        (fun m => m.base == 4096) = false)
    ∧ (update_session_from_event (applyEvents (newSessionState "s" "n" "u" "l" "t") [])
          (.dllLoaded 1 2 none 4096 none)).modules.filter (fun m => m.base == 4096)
        = [{ name := "Unknown_0x1000", base := 4096, size := none }] := by
  refine ⟨by decide, ?_⟩
  have h := (c3_module_thread_consistency "s" "n" "u" "l" "t" [] 1 2 none 4096 none).1.2
    rfl (by decide)
  have hname : ("Unknown_0x" ++ natHexU 4096 : String) = "Unknown_0x1000" := by decide
  rw [hname] at h
  exact h

/-- The session of the C4 counterexample: freshly created, so its status
is `Created`. -/
def c4Store : Store := [("s1", newSessionState "s1" "a" "u" "l" "t0")]

/-- C4 counterexample: the claim's permitted set is wrong. A target whose
status is `Created` — outside the claim's \x7bStopped, Error\x7d set — is
updated successfully, with `name`, `server_url` and `launch_command` all
changed, instead of an `InvalidSessionState` error: `update_debug_session`
gates on `Created | Finished` (`commands.rs` line 108). -/
theorem c4_created_update_succeeds_counterexample :
    (lookupStore c4Store "s1").map (fun r => r.status) = some SessionStatus.created
    ∧ update_debug_session c4Store "s1" "b" "u2" "l2"
        = .ok [("s1", newSessionState "s1" "b" "u2" "l2" "t0")] := by
  constructor
  · rfl
  · rfl

/-- C4 (as amended): the update operation is permitted only when the
target's status is `Created` or `Finished`; for a target whose status is
outside that set the operation returns an error — the invalid-state
message, or `SessionAlreadyExists` when another session already holds
the same `(server_url, launch_command)` pair — and the store (hence the
target's `name`, `server_url`, `launch_command`) is unchanged. -/
theorem c4_update_status_gating (store : Store) (sid nm u l : String) (rec : SessionState)
    (hlook : lookupStore store sid = some rec) :
    (∀ store2, update_debug_session store sid nm u l = .ok store2 →
      statusEditable rec.status = true)
    ∧ (statusEditable rec.status = false →
        applyUpdate store sid nm u l = store
        ∧ (update_debug_session store sid nm u l = .error errSessionAlreadyExists
            ∨ update_debug_session store sid nm u l = .error errInvalidEditState)) := by
  by_cases hdup : ∃ p ∈ store, p.1 ≠ sid ∧ p.2.server_url = u ∧ p.2.launch_command = l
  · constructor
    · intro store2 h
      rw [update_debug_session, if_pos hdup] at h
      exact absurd h (by simp)
    · intro hne
      refine ⟨?_, .inl ?_⟩
      · simp [applyUpdate, applyOp, update_debug_session, hdup]
      · rw [update_debug_session, if_pos hdup]
  · constructor
    · intro store2 h
      rw [update_debug_session, if_neg hdup, hlook] at h
      dsimp only at h
      by_cases hed : statusEditable rec.status = true
      · exact hed
      · rw [Bool.eq_false_iff.mpr hed] at h
        simp at h
    · intro hne
      refine ⟨?_, .inr ?_⟩
      · simp [applyUpdate, applyOp, update_debug_session, hdup, hlook, hne]
      · rw [update_debug_session, if_neg hdup, hlook]
        dsimp only
        rw [hne]
        simp

/-- The target of the C4 witness: a session in the `Running` status. -/
def c4RunningRec : SessionState :=
  { newSessionState "s1" "a" "u" "l" "t0" with status := .running }

/-- The store of the C4 witness. -/
def c4RunningStore : Store := [("s1", c4RunningRec)]

/-- C4 witness: updating a `Running` session (outside `Created` /
`Finished`) is rejected with the invalid-state message and leaves the
store unchanged. -/
theorem c4_update_status_gating_witness :
    lookupStore c4RunningStore "s1" = some c4RunningRec
    ∧ statusEditable c4RunningRec.status = false
    ∧ (applyUpdate c4RunningStore "s1" "b" "u2" "l2" = c4RunningStore
        ∧ (update_debug_session c4RunningStore "s1" "b" "u2" "l2"
              = .error errSessionAlreadyExists
            ∨ update_debug_session c4RunningStore "s1" "b" "u2" "l2"
              = .error errInvalidEditState)) :=
  ⟨rfl, rfl,
   (c4_update_status_gating c4RunningStore "s1" "b" "u2" "l2" c4RunningRec rfl).2 rfl⟩

/-- The store invariant of C5: any two entries with different ids differ
in their `(server_url, launch_command)` pair. -/
def StoreUniq (store : Store) : Prop :=
  ∀ p ∈ store, ∀ q ∈ store, p.1 ≠ q.1 →
    (p.2.server_url, p.2.launch_command) ≠ (q.2.server_url, q.2.launch_command)

theorem storeUniq_applyOp (store : Store) (op : StoreOp) (h : StoreUniq store) :
    StoreUniq (applyOp store op) := by
  have hins : ∀ (sid : String) (rec : SessionState),
      rec.server_url = rec.server_url →
      (∀ q ∈ store, q.1 ≠ sid →
        (rec.server_url, rec.launch_command) ≠ (q.2.server_url, q.2.launch_command)) →
      StoreUniq (insertStore sid rec store) := by
    intro sid rec _ hfresh p hp q hq hne
    simp only [insertStore, List.mem_cons] at hp hq
    rcases hp with hp | hp <;> rcases hq with hq | hq
    · rw [hp, hq] at hne; exact absurd rfl hne
    · have hq2 := List.mem_filter.mp hq
      have hqid : q.1 ≠ sid := by simpa using hq2.2
      rw [hp]
      exact hfresh q hq2.1 hqid
    · have hp2 := List.mem_filter.mp hp
      have hpid : p.1 ≠ sid := by simpa using hp2.2
      rw [hq]
      intro heq
      exact hfresh p hp2.1 hpid heq.symm
    · exact h p (List.mem_filter.mp hp).1 q (List.mem_filter.mp hq).1 hne
  cases op with
  | createOp ts ca nm u l =>
    simp only [applyOp, create_debug_session]
    by_cases hdup : ∃ p ∈ store, p.2.server_url = u ∧ p.2.launch_command = l
    · simpa [hdup] using h
    · simp only [hdup, if_false]
      refine hins _ _ rfl ?_
      intro q hq _
      simp only [newSessionState, ne_eq, Prod.mk.injEq, not_and]
      intro hu hl
      exact hdup ⟨q, hq, hu.symm, hl.symm⟩
  | updateOp sid nm u l =>
    simp only [applyOp, update_debug_session]
    by_cases hdup : ∃ p ∈ store, p.1 ≠ sid ∧ p.2.server_url = u ∧ p.2.launch_command = l
    · simpa [hdup] using h
    · simp only [hdup, if_false]
      cases hlk : lookupStore store sid with
      | none => exact h
      | some rec =>
        by_cases hed : statusEditable rec.status = true
        · simp only [hed, if_true]
          refine hins _ _ rfl ?_
          intro q hq hqid
          simp only [ne_eq, Prod.mk.injEq, not_and]
          intro hu hl
          exact hdup ⟨q, hq, hqid, hu.symm, hl.symm⟩
        · simp only [Bool.eq_false_iff.mpr hed]
          simpa using h

theorem storeUniq_foldl (ops : List StoreOp) :
    ∀ (store : Store), StoreUniq store → StoreUniq (ops.foldl applyOp store) := by
  induction ops with
  | nil => intro store h; exact h
  | cons op t ih => intro store h; exact ih _ (storeUniq_applyOp store op h)

/-- C5: after any sequence of create and update operations (starting from
the empty store), any two distinct stored sessions differ in their
`(server_url, launch_command)` pair; `create_debug_session` returns
`SessionAlreadyExists` when any stored session holds the requested pair,
and `update_debug_session` returns `SessionAlreadyExists` when any
session other than the target holds it. -/
theorem c5_session_pair_uniqueness :
    (∀ (ops : List StoreOp) (p q : String × SessionState),
        p ∈ applyOps ops → q ∈ applyOps ops → p.1 ≠ q.1 →
        (p.2.server_url, p.2.launch_command) ≠ (q.2.server_url, q.2.launch_command))
    ∧ (∀ (store : Store) (ts : Nat) (ca nm u l : String),
        (∃ p ∈ store, p.2.server_url = u ∧ p.2.launch_command = l) →
        create_debug_session store ts ca nm u l = .error errSessionAlreadyExists)
    ∧ (∀ (store : Store) (sid nm u l : String),
        (∃ p ∈ store, p.1 ≠ sid ∧ p.2.server_url = u ∧ p.2.launch_command = l) →
        update_debug_session store sid nm u l = .error errSessionAlreadyExists) := by
  refine ⟨?_, ?_, ?_⟩
  · intro ops p q hp hq hne
    exact storeUniq_foldl ops [] (by intro p hp; simp at hp) p hp q hq hne
  · intro store ts ca nm u l hdup
    rw [create_debug_session, if_pos hdup]
  · intro store sid nm u l hdup
    rw [update_debug_session, if_pos hdup]

/-- C5 witness: two creations with distinct pairs both land in the store
with distinct pairs, and a creation reusing the first pair is rejected. -/
theorem c5_session_pair_uniqueness_witness :
    (("session_2", newSessionState "session_2" "n" "u" "l2" "t")
        ∈ applyOps [.createOp 1 "t" "n" "u" "l", .createOp 2 "t" "n" "u" "l2"]
      ∧ ("session_1", newSessionState "session_1" "n" "u" "l" "t")
        ∈ applyOps [.createOp 1 "t" "n" "u" "l", .createOp 2 "t" "n" "u" "l2"]
      ∧ (("session_2", newSessionState "session_2" "n" "u" "l2" "t").1
          ≠ ("session_1", newSessionState "session_1" "n" "u" "l" "t").1)
      ∧ (("u", "l2") : String × String) ≠ ("u", "l"))
    ∧ ((∃ p ∈ c4Store, p.2.server_url = "u" ∧ p.2.launch_command = "l")
      ∧ create_debug_session c4Store 5 "t2" "n2" "u" "l"
          = .error errSessionAlreadyExists) := by
  constructor
  · refine ⟨by decide, by decide, by decide, ?_⟩
    exact (c5_session_pair_uniqueness.1
      [.createOp 1 "t" "n" "u" "l", .createOp 2 "t" "n" "u" "l2"]
      ("session_2", newSessionState "session_2" "n" "u" "l2" "t")
      ("session_1", newSessionState "session_1" "n" "u" "l" "t")
      (by decide) (by decide) (by decide))
  · refine ⟨⟨("s1", newSessionState "s1" "a" "u" "l" "t0"), by decide, rfl, rfl⟩, ?_⟩
    exact c5_session_pair_uniqueness.2.1 c4Store 5 "t2" "n2" "u" "l"
      ⟨("s1", newSessionState "s1" "a" "u" "l" "t0"), by decide, rfl, rfl⟩

theorem to_debug_session_default_address_x64 (st : SessionState) (e : DebugEvent)
    (info0 : DebugEventInfo) (c : Serializablex64ThreadContext) (a : Nat)
    (hev : st.current_event = some e)
    (hinfo : debug_event_to_info e = some info0)
    (haddr : info0.address = none)
    (hctx : st.current_context = some (.x64 c))
    (hdec : decode_hex_u64 c.rip = some a) :
    (to_debug_session st).current_event
      = some { info0 with context := st.current_context, address := some a } := by
  simp only [to_debug_session, hev, Option.some_bind, hinfo, Option.map_some,
    Option.map_some', Option.some.injEq]
  rw [haddr]
  simp only [Option.isSome_none, Bool.false_eq_true, if_false, hctx, hdec]

/-- C9: round trip of the register snapshot's `rip` serialization. For
any 64-bit value `a`, serializing the raw context (whose `Rip` is `a`)
with `convert_raw_context_to_serializable` (fixed 18-character,
lower-case, `0x`-prefixed hex) and letting the snapshot
address-defaulting code of `to_debug_session` decode it (strip `0x`,
parse base 16) recovers `a`: for a session paused on an address-less
event, the snapshot's event info has `address = some a`. -/
theorem c9_rip_round_trip (a : Nat) (ha : a < 2 ^ 64) (raw : RawX64Context)
    (hrip : raw.rip = a) (st : SessionState) (pid tid er et : Nat)
    (hev : st.current_event = some (.ripEvent pid tid er et))
    (hctx : st.current_context
      = some (convert_raw_context_to_serializable (.win32RawContext raw))) :
    ∃ info, (to_debug_session st).current_event = some info ∧ info.address = some a := by
  have hdec : decode_hex_u64 (formatHex18 raw.rip) = some a := by
    rw [hrip]
    exact decode_formatHex18 a ha
  have hinfo : debug_event_to_info (.ripEvent pid tid er et)
      = some { event_type := "RipEvent", process_id := pid, thread_id := tid,
               details := "RIP event: PID=" ++ toString pid ++ ", TID=" ++ toString tid ++
                 ", Error=" ++ toString er ++ ", Type=" ++ toString et,
               can_continue := true, address := none, context := none } := rfl
  exact ⟨_, to_debug_session_default_address_x64 st _ _ _ a hev hinfo rfl hctx hdec, rfl⟩

/-- The raw context of the C9 witness: `Rip = 0xDEADBEEF`. -/
def c9Raw : RawX64Context := { zeroRawContext with rip := 3735928559 }

/-- The paused-on-a-RIP-event session of the C9 witness. -/
def c9State : SessionState :=
  { newSessionState "s" "n" "u" "l" "t" with
      current_event := some (.ripEvent 1 2 3 4)
      current_context := some (convert_raw_context_to_serializable (.win32RawContext c9Raw)) }

/-- C9 witness: the round trip evaluated at `0xDEADBEEF`. -/
theorem c9_rip_round_trip_witness :
    3735928559 < 2 ^ 64
    ∧ ∃ info, (to_debug_session c9State).current_event = some info
        ∧ info.address = some 3735928559 :=
  ⟨by norm_num,
   c9_rip_round_trip 3735928559 (by norm_num) c9Raw rfl c9State 1 2 3 4 rfl rfl⟩

end JoybugTauri
